import Mathlib

/-!
Shallow embedding of `server_enhanced.py` from the changedetection-mcp-server
repository.  Python floats are modelled by exact rationals (`ℚ`), machine
dictionaries by association lists or total functions with the defaultdict
default, and the `try/except/finally` control flow of the tool dispatcher by
explicit `Except` values.  Time (`time.time()`) is passed in explicitly as a
rational timestamp.
-/

namespace ChangeDetection

/-- Rounding to two decimal places, modelling Python's `round(x, 2)` on the
values produced here (the model uses exact rationals and round-half-up; Python
uses binary floats with round-half-to-even, which agrees away from ties). -/
def round2 (q : ℚ) : ℚ := ((round (q * 100) : ℤ) : ℚ) / 100

/-- Formatting with one decimal place, modelling the f-string `{x:.1f}` used in
the rate-limit message. -/
def fmt1 (q : ℚ) : String :=
  let n : ℤ := round (q * 10)
  toString (n / 10) ++ "." ++ toString (n % 10)

/-- The whitespace characters stripped by Python's `str.strip()`; the model
restricts attention to the ASCII whitespace set. -/
def py_isspace (c : Char) : Bool :=
  c == ' ' || c == '\t' || c == '\n' || c == '\r' || c == '\x0b' || c == '\x0c'

/-- Drop the longest suffix whose characters all satisfy `p`. -/
def dropTrailing (p : Char → Bool) (l : List Char) : List Char :=
  (l.reverse.dropWhile p).reverse

/-- Python's `str.strip()` on a list of characters: remove leading and trailing
whitespace. -/
def stripBoth (l : List Char) : List Char :=
  dropTrailing py_isspace (l.dropWhile py_isspace)

/-- `sanitize_string` from `server_enhanced.py` (lines 244-258): truncate the
string to `max_length` characters, remove NUL bytes, strip surrounding
whitespace.  The `isinstance` coercion branch is vacuous in the typed model. -/
def sanitize_string (value : String) (max_length : ℕ) : String :=
  let v1 := value.data.take max_length
  let v2 := v1.filter fun c => !(c == '\x00')
  let v3 := stripBoth v2
  ⟨v3⟩

/-! ## Rate limiter (`RateLimiter`, lines 122-157) -/

/-- State of the token-bucket `RateLimiter`.  `request_counts` materialises the
`defaultdict(int)` as an association list. -/
structure RateLimiter where
  rate : ℚ
  burst : ℚ
  tokens : ℚ
  last_update : ℚ
  request_counts : List (String × ℕ)

/-- `RateLimiter.__init__(rate_per_minute, burst)` observed at time `now`. -/
def RateLimiter.init (rate_per_minute burst : ℕ) (now : ℚ) : RateLimiter :=
  { rate := (rate_per_minute : ℚ) / 60
    burst := (burst : ℚ)
    tokens := (burst : ℚ)
    last_update := now
    request_counts := [] }

/-- Increment the per-client counter of a `defaultdict(int)` association list. -/
def bumpCount (counts : List (String × ℕ)) (k : String) : List (String × ℕ) :=
  if counts.any fun p => p.1 == k then
    counts.map fun p => if p.1 = k then (p.1, p.2 + 1) else p
  else counts ++ [(k, 1)]

/-- `RateLimiter.allow_request` (lines 132-147) called at time `now`: refill
tokens from elapsed time capped at the burst capacity, then either consume one
token or report the seconds until a token is available. -/
def RateLimiter.allow_request (rl : RateLimiter) (now : ℚ) (client_id : String) :
    (Bool × Option ℚ) × RateLimiter :=
  let elapsed := now - rl.last_update
  let tokens := min rl.burst (rl.tokens + elapsed * rl.rate)
  if 1 ≤ tokens then
    ((true, none),
      { rl with
        tokens := tokens - 1
        last_update := now
        request_counts := bumpCount rl.request_counts client_id })
  else
    ((false, some ((1 - tokens) / rl.rate)), { rl with tokens := tokens, last_update := now })

/-- Result record of `RateLimiter.get_stats` (lines 149-157). -/
structure RateStats where
  enabled : Bool
  rate_per_minute : ℕ
  burst : ℚ
  current_tokens : ℚ
  total_requests : ℕ

/-- `RateLimiter.get_stats`; the `enabled` flag and configured per-minute rate
are module-level configuration in the source and are passed in here. -/
def RateLimiter.get_stats (rl : RateLimiter) (enabled : Bool) (rate_per_minute : ℕ) : RateStats :=
  { enabled := enabled
    rate_per_minute := rate_per_minute
    burst := rl.burst
    current_tokens := round2 rl.tokens
    total_requests := (rl.request_counts.map Prod.snd).sum }

/-! ## Metrics collector (`MetricsCollector`, lines 167-234) -/

/-- One `by_tool` entry of the metrics dictionary. -/
structure ToolMetrics where
  count : ℕ
  errors : ℕ
  duration_ms : ℚ
deriving DecidableEq

/-- State of the `MetricsCollector`; the inner `self.metrics` dictionary is
flattened into fields, and the `by_tool` defaultdict is a total function whose
default value is the all-zero record. -/
structure MetricsState where
  requests_total : ℕ
  requests_success : ℕ
  requests_failed : ℕ
  requests_rate_limited : ℕ
  total_duration_ms : ℚ
  by_tool : String → ToolMetrics
  start_time : ℚ

/-- `MetricsCollector.__init__` observed at time `now`. -/
def MetricsState.init (now : ℚ) : MetricsState :=
  { requests_total := 0
    requests_success := 0
    requests_failed := 0
    requests_rate_limited := 0
    total_duration_ms := 0
    by_tool := fun _ => ⟨0, 0, 0⟩
    start_time := now }

/-- `MetricsCollector.record_request` (lines 181-202). -/
def MetricsState.record_request (m : MetricsState) (tool_name : String) (success : Bool)
    (duration_ms : ℚ) (rate_limited : Bool) : MetricsState :=
  let m1 := { m with requests_total := m.requests_total + 1 }
  if rate_limited then
    { m1 with requests_rate_limited := m1.requests_rate_limited + 1 }
  else
    let m2 :=
      if success then { m1 with requests_success := m1.requests_success + 1 }
      else { m1 with requests_failed := m1.requests_failed + 1 }
    let m3 := { m2 with total_duration_ms := m2.total_duration_ms + duration_ms }
    let tm := m3.by_tool tool_name
    let tm' : ToolMetrics :=
      { count := tm.count + 1
        duration_ms := tm.duration_ms + duration_ms
        errors := tm.errors + (if success then 0 else 1) }
    { m3 with by_tool := fun t => if t = tool_name then tm' else m3.by_tool t }

/-- Snapshot returned by `MetricsCollector.get_metrics` (lines 204-234). -/
structure MetricsSnapshot where
  uptime_seconds : ℚ
  total : ℕ
  success : ℕ
  failed : ℕ
  rate_limited : ℕ
  success_rate : ℚ
  avg_duration_ms : ℚ
  total_duration_ms : ℚ
  by_tool : String → ToolMetrics

/-- `MetricsCollector.get_metrics` observed at time `now`. -/
def MetricsState.get_metrics (m : MetricsState) (now : ℚ) : MetricsSnapshot :=
  let uptime := now - m.start_time
  let avg_duration : ℚ :=
    if m.requests_success > 0 then m.total_duration_ms / (m.requests_success : ℚ) else 0
  { uptime_seconds := round2 uptime
    total := m.requests_total
    success := m.requests_success
    failed := m.requests_failed
    rate_limited := m.requests_rate_limited
    success_rate :=
      if m.requests_total > 0 then
        round2 ((m.requests_success : ℚ) / (m.requests_total : ℚ) * 100)
      else 0
    avg_duration_ms := round2 avg_duration
    total_duration_ms := round2 m.total_duration_ms
    by_tool := m.by_tool }

/-! ## Regex matching (`validate_url` and `validate_uuid`, lines 261-285)

Both validators are `re.compile(...)` patterns queried with `pattern.match(s)`
under `re.IGNORECASE`.  The model embeds the two patterns as a small regular
expression datatype together with a backtracking matcher that returns every
possible remainder of a match starting at position 0; the Python `$` anchor is
then "remainder is empty, or is a single trailing newline". -/

/-- The character classes appearing in the two compiled patterns, each
interpreted under `re.IGNORECASE` where letters are involved. -/
inductive CharCls where
  | lit (c : Char)
  | litCI (c : Char)
  | hexDigit
  | alnum
  | alnumDash
  | alpha
  | digit
  | slashOrQuestion
  | nonSpace
deriving DecidableEq

/-- Interpretation of a character class.  `lit` is used for the pattern's
non-letter literals (`-`, `:`, `/`, `.`), on which `re.IGNORECASE` case
folding is the identity; `litCI` for letter literals. -/
def CharCls.matches : CharCls → Char → Bool
  | .lit c, x => x == c
  | .litCI c, x => x.toLower == c.toLower
  | .hexDigit, x =>
      (decide ('0' ≤ x) && decide (x ≤ '9')) || (decide ('a' ≤ x) && decide (x ≤ 'f')) ||
        (decide ('A' ≤ x) && decide (x ≤ 'F'))
  | .alnum, x =>
      (decide ('0' ≤ x) && decide (x ≤ '9')) || (decide ('a' ≤ x) && decide (x ≤ 'z')) ||
        (decide ('A' ≤ x) && decide (x ≤ 'Z'))
  | .alnumDash, x =>
      (decide ('0' ≤ x) && decide (x ≤ '9')) || (decide ('a' ≤ x) && decide (x ≤ 'z')) ||
        (decide ('A' ≤ x) && decide (x ≤ 'Z')) || x == '-'
  | .alpha, x => (decide ('a' ≤ x) && decide (x ≤ 'z')) || (decide ('A' ≤ x) && decide (x ≤ 'Z'))
  | .digit, x => decide ('0' ≤ x) && decide (x ≤ '9')
  | .slashOrQuestion, x => x == '/' || x == '?'
  | .nonSpace, x => !(py_isspace x)

/-- Regular expressions: empty word, one character from a class, concatenation,
alternation, and bounded repetition `{lo,hi}` (unbounded `+`/`*` are
instantiated with the input length as upper bound, which loses no matches since
every repeated body of the embedded patterns consumes at least one character
per iteration). -/
inductive RE where
  | eps
  | cls (k : CharCls)
  | seq (a b : RE)
  | alt (a b : RE)
  | rep (r : RE) (lo hi : ℕ)

/-- Concatenation of a list of lists. -/
def joinAll : List (List (List Char)) → List (List Char)
  | [] => []
  | x :: xs => x ++ joinAll xs

/-- Remainders of matching between `lo` and `hi` repetitions of a body whose
own matcher is `f`: used for the `rep` case of `remainders`. -/
def repRem (f : List Char → List (List Char)) : ℕ → ℕ → List Char → List (List Char)
  | lo, 0, l => if lo = 0 then [l] else []
  | lo, h + 1, l =>
      (if lo = 0 then [l] else []) ++ joinAll ((f l).map fun l' => repRem f (lo - 1) h l')

/-- All possible remainders after matching `re` against a prefix of `l`
(full-backtracking semantics: a remainder is listed iff some way of matching
`re` consumes exactly the corresponding prefix). -/
def remainders : RE → List Char → List (List Char)
  | .eps, l => [l]
  | .cls _, [] => []
  | .cls k, c :: l => if k.matches c then [l] else []
  | .seq a b, l => joinAll ((remainders a l).map fun l' => remainders b l')
  | .alt a b, l => remainders a l ++ remainders b l
  | .rep r lo hi, l => repRem (remainders r) lo hi l

/-- Python's end-of-pattern `$` outside MULTILINE mode: the remainder is empty
or a single newline ending the string. -/
def dollarAccepts (r : List Char) : Bool := r == [] || r == ['\n']

/-- Regex: a single letter literal, case-insensitively (`re.IGNORECASE`
applies to literal characters of the pattern as well). -/
def reLit (c : Char) : RE := .cls (.litCI c)

/-- Regex: a single non-letter literal character (case folding is the
identity on these). -/
def reLitP (c : Char) : RE := .cls (.lit c)

/-- Right-nested concatenation of a list of regexes. -/
def reSeq : List RE → RE
  | [] => .eps
  | [r] => r
  | r :: rs => .seq r (reSeq rs)

/-- The UUID pattern `^[0-9a-f]{8}-[0-9a-f]{4}-[0-9a-f]{4}-[0-9a-f]{4}-[0-9a-f]{12}$`
(lines 281-284), without the anchors (the matcher is anchored by construction,
`$` is applied to the remainder). -/
def uuidRE : RE :=
  reSeq [.rep (.cls .hexDigit) 8 8, reLitP '-', .rep (.cls .hexDigit) 4 4, reLitP '-',
    .rep (.cls .hexDigit) 4 4, reLitP '-', .rep (.cls .hexDigit) 4 4, reLitP '-',
    .rep (.cls .hexDigit) 12 12]

/-- `validate_uuid` (lines 277-285): `bool(uuid_pattern.match(uuid_str))`. -/
def validate_uuid (uuid_str : String) : Bool :=
  (remainders uuidRE uuid_str.data).any dollarAccepts

/-- One domain label of the URL pattern: `[A-Z0-9](?:[A-Z0-9-]{0,61}[A-Z0-9])?\.` -/
def labelRE : RE :=
  reSeq [.cls .alnum, .rep (reSeq [.rep (.cls .alnumDash) 0 61, .cls .alnum]) 0 1, reLitP '.']

/-- Domain alternative of the URL pattern:
`(?:[A-Z0-9](?:[A-Z0-9-]{0,61}[A-Z0-9])?\.)+[A-Z]{2,6}\.?` with the `+`
bounded by the input length `n`. -/
def domainRE (n : ℕ) : RE :=
  reSeq [.rep labelRE 1 n, .rep (.cls .alpha) 2 6, .rep (reLitP '.') 0 1]

/-- IPv4 alternative of the URL pattern: `\d{1,3}\.\d{1,3}\.\d{1,3}\.\d{1,3}`. -/
def ipv4RE : RE :=
  reSeq [.rep (.cls .digit) 1 3, reLitP '.', .rep (.cls .digit) 1 3, reLitP '.',
    .rep (.cls .digit) 1 3, reLitP '.', .rep (.cls .digit) 1 3]

/-- `localhost` alternative (case-insensitive). -/
def localhostRE : RE := reSeq (['l', 'o', 'c', 'a', 'l', 'h', 'o', 's', 't'].map reLit)

/-- The full URL pattern of `validate_url` (lines 265-273):
`^https?://(?:domain|localhost|ipv4)(?::\d+)?(?:/?|[/?]\S+)$`, with unbounded
repetitions bounded by the input length `n`. -/
def urlRE (n : ℕ) : RE :=
  reSeq [reLit 'h', reLit 't', reLit 't', reLit 'p', .rep (reLit 's') 0 1, reLitP ':',
    reLitP '/', reLitP '/',
    .alt (domainRE n) (.alt localhostRE ipv4RE),
    .rep (reSeq [reLitP ':', .rep (.cls .digit) 1 n]) 0 1,
    .alt (.rep (reLitP '/') 0 1) (reSeq [.cls .slashOrQuestion, .rep (.cls .nonSpace) 1 n])]

/-- `validate_url` (lines 261-274): `bool(url_pattern.match(url))`. -/
def validate_url (url : String) : Bool :=
  (remainders (urlRE url.data.length) url.data).any dollarAccepts

/-! ## Remote client (`ChangeDetectionClient`, lines 293-424)

The HTTP boundary is abstracted by an oracle mapping each outbound request to
either a payload (of an abstract type `Data`) or the message of the generic
`Exception` that `_request` re-raises after normalising transport failures.
The client methods themselves — sanitisation, format validation, and the
choice of method/endpoint/body — are transcribed from the source. -/

/-- One outbound HTTP request issued by `ChangeDetectionClient._request`. -/
structure HttpReq where
  method : String
  endpoint : String
  body : List (String × String)
deriving DecidableEq

/-- A Python exception as observed by the dispatcher's handlers: either a
`ValueError` or any other `Exception`. -/
inductive PyErr where
  | valueError (msg : String)
  | otherError (msg : String)
deriving DecidableEq

/-- The network oracle: what the upstream returns (or which exception message
`_request` raises) for a given request. -/
def Oracle (Data : Type) := HttpReq → Except String Data

/-- Issue one request through `_request`: any failure surfaces as a generic
(non-`ValueError`) exception. -/
def runReq {Data : Type} (oracle : Oracle Data) (method endpoint : String)
    (body : List (String × String)) : Except PyErr Data × List HttpReq :=
  let req : HttpReq := ⟨method, endpoint, body⟩
  (match oracle req with
    | .ok d => .ok d
    | .error m => .error (.otherError m), [req])

/-- `ChangeDetectionClient.list_watches` (lines 378-380). -/
def client_list_watches {Data : Type} (oracle : Oracle Data) : Except PyErr Data × List HttpReq :=
  runReq oracle "GET" "/api/v1/watch" []

/-- `ChangeDetectionClient.get_watch` (lines 382-387). -/
def client_get_watch {Data : Type} (oracle : Oracle Data) (watch_id : String) :
    Except PyErr Data × List HttpReq :=
  let wid := sanitize_string watch_id 2048
  if validate_uuid wid then runReq oracle "GET" ("/api/v1/watch/" ++ wid) []
  else (.error (.valueError ("Invalid watch ID format: " ++ wid)), [])

/-- `ChangeDetectionClient.create_watch` (lines 389-399); `if tag:` skips both
a missing and an empty tag. -/
def client_create_watch {Data : Type} (oracle : Oracle Data) (url : String) (tag : Option String) :
    Except PyErr Data × List HttpReq :=
  let u := sanitize_string url 2048
  if validate_url u then
    let base := [("url", u)]
    let data :=
      if (tag.getD "") = "" then base else base ++ [("tag", sanitize_string (tag.getD "") 100)]
    runReq oracle "POST" "/api/v1/watch" data
  else (.error (.valueError ("Invalid URL format: " ++ u)), [])

/-- `ChangeDetectionClient.delete_watch` (lines 401-406). -/
def client_delete_watch {Data : Type} (oracle : Oracle Data) (watch_id : String) :
    Except PyErr Data × List HttpReq :=
  let wid := sanitize_string watch_id 2048
  if validate_uuid wid then runReq oracle "DELETE" ("/api/v1/watch/" ++ wid) []
  else (.error (.valueError ("Invalid watch ID format: " ++ wid)), [])

/-- `ChangeDetectionClient.trigger_check` (lines 408-413). -/
def client_trigger_check {Data : Type} (oracle : Oracle Data) (watch_id : String) :
    Except PyErr Data × List HttpReq :=
  let wid := sanitize_string watch_id 2048
  if validate_uuid wid then runReq oracle "GET" ("/api/v1/watch/" ++ wid ++ "/trigger") []
  else (.error (.valueError ("Invalid watch ID format: " ++ wid)), [])

/-- `ChangeDetectionClient.get_history` (lines 415-420). -/
def client_get_history {Data : Type} (oracle : Oracle Data) (watch_id : String) :
    Except PyErr Data × List HttpReq :=
  let wid := sanitize_string watch_id 2048
  if validate_uuid wid then runReq oracle "GET" ("/api/v1/watch/" ++ wid ++ "/history") []
  else (.error (.valueError ("Invalid watch ID format: " ++ wid)), [])

/-- `ChangeDetectionClient.system_info` (lines 422-424). -/
def client_system_info {Data : Type} (oracle : Oracle Data) : Except PyErr Data × List HttpReq :=
  runReq oracle "GET" "/api/v1/systeminfo" []

/-! ## Tool dispatcher (`call_tool`, lines 543-664) -/

/-- `SERVER_VERSION` (line 36). -/
def SERVER_VERSION : String := "1.0.0"

/-- Environment-derived module configuration used inside `call_tool`. -/
structure Config where
  rate_limit_enabled : Bool
  rate_limit_per_minute : ℕ
  enable_metrics : Bool
  debug_mode : Bool

/-- The `arguments` bag of a tool invocation: a string-keyed dictionary whose
`get` returns `none` for missing keys. -/
def Args := String → Option String

/-- The argument bag with no entries. -/
def noArgs : Args := fun _ => none

/-- The payload of a successful tool call: either upstream data or the
composite object built by the `get_metrics` branch (lines 614-620). -/
inductive ToolData (Data : Type) where
  | remote (d : Data)
  | metricsReport (server_metrics : MetricsSnapshot) (rate_limiter : RateStats) (version : String)

/-- A JSON value of a response envelope field. -/
inductive JVal (Data : Type) where
  | jstr (s : String)
  | jnum (q : ℚ)
  | jbool (b : Bool)
  | jpayload (d : ToolData Data)

/-- A response envelope: the JSON object serialised into the returned
`TextContent`, as an ordered field list. -/
def Envelope (Data : Type) := List (String × JVal Data)

/-- The process-wide mutable state touched by `call_tool`: the rate limiter
and metrics singletons. -/
structure SysState where
  limiter : RateLimiter
  metrics : MetricsState

/-- The observable outcome of one `call_tool` invocation: the envelope it
returns, the state it leaves behind, and the outbound requests it made. -/
structure CallOutput (Data : Type) where
  envelope : Envelope Data
  state : SysState
  trace : List HttpReq

/-- The body of the `try` block after the rate gate (lines 569-623): route the
tool name to a handler; a missing/empty required argument or an unknown name
raises `ValueError`.  `tSnap` is the clock reading used by the `get_metrics`
branch. -/
def routeTool {Data : Type} (cfg : Config) (oracle : Oracle Data) (rl : RateLimiter)
    (m : MetricsState) (tSnap : ℚ) (name : String) (args : Args) :
    Except PyErr (ToolData Data) × List HttpReq :=
  let lift : Except PyErr Data × List HttpReq → Except PyErr (ToolData Data) × List HttpReq :=
    fun p => (p.1.map ToolData.remote, p.2)
  if name = "list_watches" then lift (client_list_watches oracle)
  else if name = "get_watch" then
    let w := (args "watch_id").getD ""
    if w = "" then (.error (.valueError "watch_id is required"), [])
    else lift (client_get_watch oracle w)
  else if name = "create_watch" then
    let u := (args "url").getD ""
    if u = "" then (.error (.valueError "url is required"), [])
    else lift (client_create_watch oracle u (args "tag"))
  else if name = "delete_watch" then
    let w := (args "watch_id").getD ""
    if w = "" then (.error (.valueError "watch_id is required"), [])
    else lift (client_delete_watch oracle w)
  else if name = "trigger_check" then
    let w := (args "watch_id").getD ""
    if w = "" then (.error (.valueError "watch_id is required"), [])
    else lift (client_trigger_check oracle w)
  else if name = "get_history" then
    let w := (args "watch_id").getD ""
    if w = "" then (.error (.valueError "watch_id is required"), [])
    else lift (client_get_history oracle w)
  else if name = "system_info" then lift (client_system_info oracle)
  else if name = "get_metrics" then
    (.ok (.metricsReport (m.get_metrics tSnap)
      (rl.get_stats cfg.rate_limit_enabled cfg.rate_limit_per_minute) SERVER_VERSION), [])
  else (.error (.valueError ("Unknown tool: " ++ name)), [])

/-- The `finally` block (lines 655-664): when metrics are enabled, record the
call with its success flag and elapsed milliseconds. -/
def finallyRecord (cfg : Config) (m : MetricsState) (name : String) (success : Bool)
    (tStart tEnd : ℚ) : MetricsState :=
  if cfg.enable_metrics then m.record_request name success ((tEnd - tStart) * 1000) false else m

/-- Everything `call_tool` does once the rate gate has been passed (or
skipped): route, map the result or exception to an envelope (lines 625-653),
and run the `finally` block. -/
def afterGate {Data : Type} (cfg : Config) (oracle : Oracle Data) (name : String) (args : Args)
    (st : SysState) (tStart tEnd : ℚ) : CallOutput Data :=
  let rt := routeTool cfg oracle st.limiter st.metrics tStart name args
  let env : Envelope Data :=
    match rt.1 with
    | .ok d => [("success", .jbool true), ("data", .jpayload d)]
    | .error (.valueError msg) =>
        [("success", .jbool false), ("error", .jstr "validation_error"), ("message", .jstr msg)]
    | .error (.otherError msg) =>
        [("success", .jbool false), ("error", .jstr "execution_error"),
          ("message", .jstr (if cfg.debug_mode then msg
            else "An error occurred processing your request"))]
  let succ := match rt.1 with | .ok _ => true | .error _ => false
  { envelope := env
    state := { limiter := st.limiter, metrics := finallyRecord cfg st.metrics name succ tStart tEnd }
    trace := rt.2 }

/-- `call_tool` (lines 543-664).  `tStart` is the `time.time()` reading at
entry, `tRl` the one inside `allow_request`, and `tEnd` the one in the
`finally` block.  On rejection the handler records the rate-limited metric,
returns the three-field rate-limit envelope, and still runs the `finally`
block (a Python `finally` runs even on `return` from `try`). -/
def call_tool {Data : Type} (cfg : Config) (oracle : Oracle Data) (name : String) (args : Args)
    (st : SysState) (tStart tRl tEnd : ℚ) : CallOutput Data :=
  if cfg.rate_limit_enabled ∧ name ≠ "get_metrics" then
    let ar := st.limiter.allow_request tRl "default"
    if ar.1.1 then afterGate cfg oracle name args { limiter := ar.2, metrics := st.metrics } tStart tEnd
    else
      let retry := (ar.1.2).getD 0
      let env : Envelope Data :=
        [("error", .jstr "rate_limit_exceeded"),
          ("message", .jstr ("Rate limit exceeded. Retry after " ++ fmt1 retry ++ "s")),
          ("retry_after", .jnum retry)]
      let m1 := st.metrics.record_request name false 0 true
      let m2 := finallyRecord cfg m1 name false tStart tEnd
      { envelope := env, state := { limiter := ar.2, metrics := m2 }, trace := [] }
  else afterGate cfg oracle name args st tStart tEnd

/-- The eight tool names of the catalog (lines 441-540). -/
def knownTools : List String :=
  ["list_watches", "get_watch", "create_watch", "delete_watch", "trigger_check",
    "get_history", "system_info", "get_metrics"]

/-! ## Spec-side definitions and iteration helpers for the claims -/

/-- Modelled from the spec's words, for the refinement claim about
`validate_uuid`: a hexadecimal digit, case-insensitively. -/
def specHexDigit (c : Char) : Prop :=
  ('0' ≤ c ∧ c ≤ '9') ∨ ('a' ≤ c ∧ c ≤ 'f') ∨ ('A' ≤ c ∧ c ≤ 'F')

/-- Modelled from the spec's words: a character list in the canonical
8-4-4-4-12 hexadecimal grouping of a UUID (case-insensitive, independent of
version bits). -/
def isCanonicalUuidChars (l : List Char) : Prop :=
  ∃ g1 g2 g3 g4 g5 : List Char,
    g1.length = 8 ∧ g2.length = 4 ∧ g3.length = 4 ∧ g4.length = 4 ∧ g5.length = 12 ∧
    (∀ c ∈ g1, specHexDigit c) ∧ (∀ c ∈ g2, specHexDigit c) ∧ (∀ c ∈ g3, specHexDigit c) ∧
    (∀ c ∈ g4, specHexDigit c) ∧ (∀ c ∈ g5, specHexDigit c) ∧
    l = g1 ++ '-' :: (g2 ++ '-' :: (g3 ++ '-' :: (g4 ++ '-' :: g5)))

/-- Modelled from the spec's words: a string in the canonical UUID grouping. -/
def isCanonicalUuid (s : String) : Prop := isCanonicalUuidChars s.data

/-- State of the rate limiter after `n` consecutive `allow_request` calls all
issued at time `t`. -/
def rlIter (rl : RateLimiter) (t : ℚ) : ℕ → RateLimiter
  | 0 => rl
  | n + 1 => ((rlIter rl t n).allow_request t "default").2

/-- The result of the `(n+1)`-th consecutive `allow_request` call at time `t`
(`n` calls have already happened). -/
def nthCallResult (rl : RateLimiter) (t : ℚ) (n : ℕ) : Bool × Option ℚ :=
  ((rlIter rl t n).allow_request t "default").1

/-- The rate limiter state after a sequence of `allow_request` calls at the
given times. -/
def runCalls (rl : RateLimiter) (ts : List ℚ) : RateLimiter :=
  ts.foldl (fun r t => (r.allow_request t "default").2) rl

/-! ### Concrete fixtures for witnesses and counterexamples -/

/-- The default configuration of the source: rate limiting on at 60/min,
metrics on, debug off. -/
def cfg0 : Config :=
  { rate_limit_enabled := true, rate_limit_per_minute := 60
    enable_metrics := true, debug_mode := false }

/-- The default configuration with rate limiting disabled. -/
def cfgOff : Config :=
  { rate_limit_enabled := false, rate_limit_per_minute := 60
    enable_metrics := true, debug_mode := false }

/-- A network oracle whose every request fails with a connection error. -/
def oracleU : Oracle Unit := fun _ => .error "Cannot connect to http://localhost:5000"

/-- Fresh system state whose rate limiter has burst capacity zero: the very
first request is rejected. -/
def stDeny : SysState :=
  { limiter := RateLimiter.init 60 0 0, metrics := MetricsState.init 0 }

/-- Fresh system state with the default burst capacity of ten. -/
def stFresh : SysState :=
  { limiter := RateLimiter.init 60 10 0, metrics := MetricsState.init 0 }

/-- Metrics state reached by recording one successful and two failed calls of
a tool named "t": three total requests, one success. -/
def metricsOneOfThree : MetricsState :=
  (((MetricsState.init 0).record_request "t" true 0 false).record_request
    "t" false 0 false).record_request "t" false 0 false

/-! ## Helper lemmas about `dropWhile`, `dropTrailing` and `stripBoth` -/

theorem dropWhile_head_not (p : Char → Bool) :
    ∀ (l : List Char) (c : Char), (l.dropWhile p).head? = some c → p c = false
  | [], c => by simp [List.dropWhile]
  | a :: l, c => by
    rw [List.dropWhile_cons]
    by_cases hp : p a = true
    · rw [if_pos hp]
      exact dropWhile_head_not p l c
    · rw [if_neg hp]
      intro h
      simp only [List.head?_cons, Option.some.injEq] at h
      subst h
      simpa using hp

theorem dropWhile_eq_self_of_head (p : Char → Bool) (l : List Char)
    (h : ∀ c, l.head? = some c → p c = false) : l.dropWhile p = l := by
  cases l with
  | nil => rfl
  | cons a l => rw [List.dropWhile_cons, if_neg (by simp [h a rfl])]

theorem dropTrailing_prefix (p : Char → Bool) (l : List Char) :
    ∃ t, l = dropTrailing p l ++ t := by
  obtain ⟨t, ht⟩ := List.dropWhile_suffix (l := l.reverse) p
  refine ⟨t.reverse, ?_⟩
  have := congrArg List.reverse ht
  simpa [dropTrailing, List.reverse_append] using this.symm

theorem dropTrailing_getLast_not (p : Char → Bool) (l : List Char) (c : Char)
    (h : (dropTrailing p l).getLast? = some c) : p c = false := by
  rw [dropTrailing, List.getLast?_reverse] at h
  exact dropWhile_head_not p _ c h

theorem dropTrailing_eq_self_of_getLast (p : Char → Bool) (l : List Char)
    (h : ∀ c, l.getLast? = some c → p c = false) : dropTrailing p l = l := by
  rw [dropTrailing, dropWhile_eq_self_of_head p l.reverse, List.reverse_reverse]
  intro c hc
  rw [List.head?_reverse] at hc
  exact h c hc

theorem mem_dropTrailing (p : Char → Bool) (l : List Char) (c : Char)
    (h : c ∈ dropTrailing p l) : c ∈ l := by
  obtain ⟨t, ht⟩ := dropTrailing_prefix p l
  rw [ht]
  exact List.mem_append_left t h

theorem length_dropTrailing_le (p : Char → Bool) (l : List Char) :
    (dropTrailing p l).length ≤ l.length := by
  obtain ⟨t, ht⟩ := dropTrailing_prefix p l
  have h2 := congrArg List.length ht
  rw [List.length_append] at h2
  omega

theorem mem_stripBoth (l : List Char) (c : Char) (h : c ∈ stripBoth l) : c ∈ l :=
  (List.dropWhile_suffix py_isspace).subset (mem_dropTrailing _ _ _ h)

theorem length_stripBoth_le (l : List Char) : (stripBoth l).length ≤ l.length :=
  le_trans (length_dropTrailing_le _ _) (List.dropWhile_suffix py_isspace).sublist.length_le

theorem stripBoth_head_not (l : List Char) (c : Char)
    (h : (stripBoth l).head? = some c) : py_isspace c = false := by
  have hsb : stripBoth l = dropTrailing py_isspace (l.dropWhile py_isspace) := rfl
  rw [hsb] at h
  obtain ⟨t, ht⟩ := dropTrailing_prefix py_isspace (l.dropWhile py_isspace)
  refine dropWhile_head_not py_isspace l c ?_
  rw [ht]
  cases hd : dropTrailing py_isspace (l.dropWhile py_isspace) with
  | nil => rw [hd] at h; simp at h
  | cons x d =>
    simp only [hd] at h ⊢
    simpa using h

theorem stripBoth_getLast_not (l : List Char) (c : Char)
    (h : (stripBoth l).getLast? = some c) : py_isspace c = false :=
  dropTrailing_getLast_not py_isspace _ c h

theorem stripBoth_idem (l : List Char) : stripBoth (stripBoth l) = stripBoth l := by
  have h1 : (stripBoth l).dropWhile py_isspace = stripBoth l :=
    dropWhile_eq_self_of_head _ _ (fun c hc => stripBoth_head_not l c hc)
  have h2 : dropTrailing py_isspace (stripBoth l) = stripBoth l :=
    dropTrailing_eq_self_of_getLast _ _ (fun c hc => stripBoth_getLast_not l c hc)
  rw [stripBoth, h1, h2]

/-- C10: sanitised strings are at most `max_length` long, contain no NUL, have
no surrounding whitespace, and `sanitize_string` is idempotent. -/
theorem claim_C10 (s : String) (m : ℕ) :
    (sanitize_string s m).length ≤ m ∧
    '\x00' ∉ (sanitize_string s m).data ∧
    (∀ c, (sanitize_string s m).data.head? = some c → py_isspace c = false) ∧
    (∀ c, (sanitize_string s m).data.getLast? = some c → py_isspace c = false) ∧
    sanitize_string (sanitize_string s m) m = sanitize_string s m := by
  have hdata : (sanitize_string s m).data
      = stripBoth ((s.data.take m).filter fun c => !(c == '\x00')) := rfl
  have hlen : (sanitize_string s m).length ≤ m := by
    show (sanitize_string s m).data.length ≤ m
    rw [hdata]
    calc (stripBoth ((s.data.take m).filter fun c => !(c == '\x00'))).length
        ≤ ((s.data.take m).filter fun c => !(c == '\x00')).length := length_stripBoth_le _
      _ ≤ (s.data.take m).length := List.length_filter_le _ _
      _ ≤ m := by rw [List.length_take]; omega
  have hmem : ∀ c ∈ (sanitize_string s m).data, (fun c => !(c == '\x00')) c = true := by
    intro c hc
    rw [hdata] at hc
    exact (List.mem_filter.mp (mem_stripBoth _ c hc)).2
  refine ⟨hlen, ?_, ?_, ?_, ?_⟩
  · intro h
    have := hmem _ h
    simp at this
  · intro c hc
    rw [hdata] at hc
    exact stripBoth_head_not _ c hc
  · intro c hc
    rw [hdata] at hc
    exact stripBoth_getLast_not _ c hc
  · have htake : (sanitize_string s m).data.take m = (sanitize_string s m).data :=
      List.take_of_length_le hlen
    have hfil : (sanitize_string s m).data.filter (fun c => !(c == '\x00'))
        = (sanitize_string s m).data := List.filter_eq_self.mpr hmem
    show (⟨stripBoth (((sanitize_string s m).data.take m).filter fun c => !(c == '\x00'))⟩ : String)
      = sanitize_string s m
    rw [htake, hfil, hdata, stripBoth_idem]
    rfl

/-- Witness for C10 at a concrete string. -/
theorem claim_C10_witness :
    sanitize_string (sanitize_string "  ab\x00c  " 6) 6 = sanitize_string "  ab\x00c  " 6 :=
  (claim_C10 "  ab\x00c  " 6).2.2.2.2

/-! ## Helper lemmas about the regex matcher -/

theorem mem_joinAll (x : List Char) :
    ∀ ls : List (List (List Char)), (x ∈ joinAll ls ↔ ∃ l ∈ ls, x ∈ l)
  | [] => by simp [joinAll]
  | l :: ls => by
    simp [joinAll, List.mem_append, mem_joinAll x ls]

theorem remainders_cls (k : CharCls) (l r : List Char) :
    r ∈ remainders (.cls k) l ↔ ∃ c, l = c :: r ∧ k.matches c = true := by
  cases l with
  | nil => simp [remainders]
  | cons a l =>
    by_cases h : k.matches a = true
    · rw [show remainders (.cls k) (a :: l) = if k.matches a then [l] else [] from rfl, if_pos h]
      constructor
      · intro hr
        rw [List.mem_singleton] at hr
        subst hr
        exact ⟨a, rfl, h⟩
      · rintro ⟨c, heq, _⟩
        simp only [List.cons.injEq] at heq
        obtain ⟨rfl, rfl⟩ := heq
        exact List.mem_singleton.mpr rfl
    · simp only [remainders, h, Bool.false_eq_true, if_false, List.not_mem_nil, false_iff]
      rintro ⟨c, heq, hc⟩
      cases heq
      exact h hc

theorem remainders_lit (c : Char) (l r : List Char) :
    r ∈ remainders (.cls (.lit c)) l ↔ l = c :: r := by
  rw [remainders_cls]
  constructor
  · rintro ⟨x, rfl, hx⟩
    simp only [CharCls.matches, beq_iff_eq] at hx
    rw [hx]
  · rintro rfl
    exact ⟨c, rfl, by simp [CharCls.matches]⟩

theorem remainders_seq (a b : RE) (l r : List Char) :
    r ∈ remainders (.seq a b) l ↔ ∃ m, m ∈ remainders a l ∧ r ∈ remainders b m := by
  rw [show remainders (.seq a b) l
      = joinAll ((remainders a l).map fun l' => remainders b l') from rfl]
  rw [mem_joinAll]
  constructor
  · rintro ⟨x, hx, hr⟩
    obtain ⟨m, hm, rfl⟩ := List.mem_map.mp hx
    exact ⟨m, hm, hr⟩
  · rintro ⟨m, hm, hr⟩
    exact ⟨remainders b m, List.mem_map.mpr ⟨m, hm, rfl⟩, hr⟩

theorem remainders_repCls (k : CharCls) :
    ∀ (n : ℕ) (l r : List Char),
      (r ∈ remainders (.rep (.cls k) n n) l ↔
        ∃ a, l = a ++ r ∧ a.length = n ∧ ∀ c ∈ a, k.matches c = true)
  | 0, l, r => by
    rw [show remainders (.rep (.cls k) 0 0) l = [l] from rfl]
    constructor
    · intro hr
      rw [List.mem_singleton] at hr
      subst hr
      exact ⟨[], rfl, rfl, by simp⟩
    · rintro ⟨a, heq, hlen, _⟩
      rw [List.length_eq_zero] at hlen
      subst hlen
      rw [List.mem_singleton]
      simpa using heq.symm
  | n + 1, l, r => by
    rw [show remainders (.rep (.cls k) (n + 1) (n + 1)) l
        = joinAll ((remainders (.cls k) l).map
            fun l' => remainders (.rep (.cls k) n n) l') from rfl]
    rw [mem_joinAll]
    constructor
    · rintro ⟨x, hx, hr⟩
      obtain ⟨m, hm, rfl⟩ := List.mem_map.mp hx
      obtain ⟨c, rfl, hc⟩ := (remainders_cls k _ m).mp hm
      obtain ⟨a, rfl, hlen, ha⟩ := (remainders_repCls k n m r).mp hr
      refine ⟨c :: a, rfl, by simp [hlen], ?_⟩
      intro c' hc'
      rcases List.mem_cons.mp hc' with rfl | h'
      · exact hc
      · exact ha c' h'
    · rintro ⟨a, rfl, hlen, ha⟩
      cases a with
      | nil => simp at hlen
      | cons c a' =>
        refine ⟨remainders (.rep (.cls k) n n) (a' ++ r),
          List.mem_map.mpr ⟨a' ++ r, ?_, rfl⟩, ?_⟩
        · exact (remainders_cls k _ _).mpr ⟨c, by simp, ha c (by simp)⟩
        · refine (remainders_repCls k n _ _).mpr ⟨a', rfl, by simpa using hlen, ?_⟩
          intro c' h'
          exact ha c' (List.mem_cons_of_mem _ h')

theorem hexDigit_matches_iff (c : Char) :
    CharCls.hexDigit.matches c = true ↔ specHexDigit c := by
  simp [CharCls.matches, specHexDigit, Bool.or_eq_true, Bool.and_eq_true, decide_eq_true_eq,
    or_assoc]

/-- Characterisation of a successful `uuidRE` match: the consumed prefix is
exactly an 8-4-4-4-12 grouping of hex digits separated by dashes. -/
theorem remainders_uuidRE (l r : List Char) :
    r ∈ remainders uuidRE l ↔ ∃ core, isCanonicalUuidChars core ∧ l = core ++ r := by
  show r ∈ remainders
    (.seq (.rep (.cls .hexDigit) 8 8) (.seq (.cls (.lit '-'))
      (.seq (.rep (.cls .hexDigit) 4 4) (.seq (.cls (.lit '-'))
        (.seq (.rep (.cls .hexDigit) 4 4) (.seq (.cls (.lit '-'))
          (.seq (.rep (.cls .hexDigit) 4 4) (.seq (.cls (.lit '-'))
            (.rep (.cls .hexDigit) 12 12))))))))) l ↔ _
  simp only [remainders_seq, remainders_repCls, remainders_lit]
  constructor
  · rintro ⟨m1, ⟨g1, rfl, hl1, hh1⟩, m2, rfl, m3, ⟨g2, rfl, hl2, hh2⟩, m4, rfl,
      m5, ⟨g3, rfl, hl3, hh3⟩, m6, rfl, m7, ⟨g4, rfl, hl4, hh4⟩, m8, rfl,
      g5, rfl, hl5, hh5⟩
    refine ⟨g1 ++ '-' :: (g2 ++ '-' :: (g3 ++ '-' :: (g4 ++ '-' :: g5))),
      ⟨g1, g2, g3, g4, g5, hl1, hl2, hl3, hl4, hl5,
        fun c hc => (hexDigit_matches_iff c).mp (hh1 c hc),
        fun c hc => (hexDigit_matches_iff c).mp (hh2 c hc),
        fun c hc => (hexDigit_matches_iff c).mp (hh3 c hc),
        fun c hc => (hexDigit_matches_iff c).mp (hh4 c hc),
        fun c hc => (hexDigit_matches_iff c).mp (hh5 c hc), rfl⟩, ?_⟩
    simp [List.append_assoc, List.cons_append]
  · rintro ⟨core, ⟨g1, g2, g3, g4, g5, hl1, hl2, hl3, hl4, hl5,
      hh1, hh2, hh3, hh4, hh5, rfl⟩, rfl⟩
    refine ⟨'-' :: (g2 ++ '-' :: (g3 ++ '-' :: (g4 ++ '-' :: g5))) ++ r,
      ⟨g1, by simp [List.append_assoc, List.cons_append], hl1,
        fun c hc => (hexDigit_matches_iff c).mpr (hh1 c hc)⟩,
      (g2 ++ '-' :: (g3 ++ '-' :: (g4 ++ '-' :: g5))) ++ r, by simp,
      '-' :: (g3 ++ '-' :: (g4 ++ '-' :: g5)) ++ r,
      ⟨g2, by simp [List.append_assoc, List.cons_append], hl2,
        fun c hc => (hexDigit_matches_iff c).mpr (hh2 c hc)⟩,
      (g3 ++ '-' :: (g4 ++ '-' :: g5)) ++ r, by simp,
      '-' :: (g4 ++ '-' :: g5) ++ r,
      ⟨g3, by simp [List.append_assoc, List.cons_append], hl3,
        fun c hc => (hexDigit_matches_iff c).mpr (hh3 c hc)⟩,
      (g4 ++ '-' :: g5) ++ r, by simp,
      '-' :: g5 ++ r,
      ⟨g4, by simp [List.append_assoc, List.cons_append], hl4,
        fun c hc => (hexDigit_matches_iff c).mpr (hh4 c hc)⟩,
      g5 ++ r, by simp,
      g5, rfl, hl5, fun c hc => (hexDigit_matches_iff c).mpr (hh5 c hc)⟩

/-- C9 (corrected): `validate_uuid` accepts exactly the canonical grouping
optionally followed by one trailing newline (Python `$` semantics), and
behaves as claimed on the three concrete examples. -/
theorem claim_C9_amended :
    (∀ s : String, validate_uuid s = true ↔
      (isCanonicalUuid s ∨ ∃ core, isCanonicalUuidChars core ∧ s.data = core ++ ['\n'])) ∧
    validate_uuid "550e8400-e29b-41d4-a716-446655440000" = true ∧
    validate_uuid "550E8400-E29B-41D4-A716-446655440000" = true ∧
    validate_uuid "not-a-uuid" = false := by
  refine ⟨?_, by decide, by decide, by decide⟩
  intro s
  rw [validate_uuid, List.any_eq_true]
  constructor
  · rintro ⟨r, hr, hd⟩
    obtain ⟨core, hc, heq⟩ := (remainders_uuidRE s.data r).mp hr
    rcases (show r = [] ∨ r = ['\n'] by
        simpa [dollarAccepts, Bool.or_eq_true, beq_iff_eq] using hd) with rfl | rfl
    · rw [List.append_nil] at heq
      exact Or.inl (show isCanonicalUuidChars s.data from heq ▸ hc)
    · exact Or.inr ⟨core, hc, heq⟩
  · rintro (h | ⟨core, hc, heq⟩)
    · exact ⟨[], (remainders_uuidRE s.data []).mpr ⟨s.data, h, by simp⟩, by simp [dollarAccepts]⟩
    · exact ⟨['\n'], (remainders_uuidRE s.data ['\n']).mpr ⟨core, hc, heq⟩,
        by simp [dollarAccepts]⟩

/-- C9 counterexample: a canonical UUID followed by a newline is accepted by
`validate_uuid` (Python `$` matches before a trailing newline) but is not in
the canonical 8-4-4-4-12 grouping. -/
theorem claim_C9_counterexample :
    validate_uuid "550e8400-e29b-41d4-a716-446655440000\n" = true ∧
    ¬ isCanonicalUuid "550e8400-e29b-41d4-a716-446655440000\n" := by
  constructor
  · decide
  · intro h
    obtain ⟨g1, g2, g3, g4, g5, h1, h2, h3, h4, h5, _, _, _, _, _, heq⟩ := h
    have hL : ("550e8400-e29b-41d4-a716-446655440000\n" : String).data.length = 37 := by decide
    rw [heq] at hL
    simp [List.length_append, List.length_cons, h1, h2, h3, h4, h5] at hL

/-! ## Helper lemmas about the rate limiter -/

theorem allow_request_fields (rl : RateLimiter) (t : ℚ) (cid : String) :
    (rl.allow_request t cid).2.last_update = t ∧
    (rl.allow_request t cid).2.rate = rl.rate ∧
    (rl.allow_request t cid).2.burst = rl.burst := by
  unfold RateLimiter.allow_request
  dsimp only
  split
  · exact ⟨rfl, rfl, rfl⟩
  · exact ⟨rfl, rfl, rfl⟩

theorem allow_request_invariant (rl : RateLimiter) (t : ℚ) (cid : String)
    (h0 : 0 ≤ rl.tokens) (h1 : rl.tokens ≤ rl.burst) (hr : 0 ≤ rl.rate)
    (ht : rl.last_update ≤ t) :
    0 ≤ (rl.allow_request t cid).2.tokens ∧ (rl.allow_request t cid).2.tokens ≤ rl.burst := by
  have hx : 0 ≤ rl.tokens + (t - rl.last_update) * rl.rate := by
    have := mul_nonneg (show (0:ℚ) ≤ t - rl.last_update by linarith) hr
    linarith
  have hmin1 : min rl.burst (rl.tokens + (t - rl.last_update) * rl.rate) ≤ rl.burst :=
    min_le_left _ _
  have hmin0 : 0 ≤ min rl.burst (rl.tokens + (t - rl.last_update) * rl.rate) :=
    le_min (by linarith) hx
  unfold RateLimiter.allow_request
  dsimp only
  split
  · rename_i hcond
    exact ⟨by dsimp only; linarith, by dsimp only; linarith⟩
  · exact ⟨by dsimp only; linarith, by dsimp only; linarith⟩

theorem runCalls_invariant : ∀ (ts : List ℚ) (rl : RateLimiter),
    0 ≤ rl.tokens → rl.tokens ≤ rl.burst → 0 ≤ rl.rate →
    List.Chain (· ≤ ·) rl.last_update ts →
    (0 ≤ (runCalls rl ts).tokens ∧ (runCalls rl ts).tokens ≤ (runCalls rl ts).burst ∧
      (runCalls rl ts).burst = rl.burst)
  | [], rl, h0, h1, _, _ => ⟨h0, h1, rfl⟩
  | t :: ts, rl, h0, h1, hr, hch => by
    obtain ⟨hle, hch'⟩ := List.chain_cons.mp hch
    have hstep := allow_request_invariant rl t "default" h0 h1 hr hle
    obtain ⟨hu, hrate, hburst⟩ := allow_request_fields rl t "default"
    have hrec := runCalls_invariant ts ((rl.allow_request t "default").2)
      hstep.1 (by rw [hburst]; exact hstep.2) (by rw [hrate]; exact hr)
      (by rw [hu]; exact hch')
    rw [show runCalls rl (t :: ts) = runCalls ((rl.allow_request t "default").2) ts from rfl]
    exact ⟨hrec.1, hrec.2.1, by rw [hrec.2.2, hburst]⟩

theorem chain_take {a : ℚ} : ∀ (ts : List ℚ) (n : ℕ),
    List.Chain (· ≤ ·) a ts → List.Chain (· ≤ ·) a (ts.take n)
  | [], _, _ => by simpa using List.Chain.nil
  | _ :: _, 0, _ => by simpa using List.Chain.nil
  | t :: ts, n + 1, h => by
    rw [List.take_succ_cons]
    obtain ⟨h1, h2⟩ := List.chain_cons.mp h
    exact List.chain_cons.mpr ⟨h1, chain_take ts n h2⟩

/-- State of the limiter after `k` zero-elapsed-time calls on a fresh bucket:
`k` tokens have been consumed and the clock fields are unchanged. -/
theorem rlIter_init_state (rpm B : ℕ) (t0 : ℚ) :
    ∀ k : ℕ, k ≤ B →
      (rlIter (RateLimiter.init rpm B t0) t0 k).tokens = (B : ℚ) - k ∧
      (rlIter (RateLimiter.init rpm B t0) t0 k).last_update = t0 ∧
      (rlIter (RateLimiter.init rpm B t0) t0 k).rate = (rpm : ℚ) / 60 ∧
      (rlIter (RateLimiter.init rpm B t0) t0 k).burst = (B : ℚ)
  | 0, _ => by
    refine ⟨?_, rfl, rfl, rfl⟩
    simp [rlIter, RateLimiter.init]
  | k + 1, hk => by
    obtain ⟨ht, hu, hr, hb⟩ := rlIter_init_state rpm B t0 k (Nat.le_of_succ_le hk)
    have hcast : (k : ℚ) + 1 ≤ (B : ℚ) := by exact_mod_cast hk
    have hk0 : (0 : ℚ) ≤ (k : ℚ) := Nat.cast_nonneg k
    have hmin : min (rlIter (RateLimiter.init rpm B t0) t0 k).burst
        ((rlIter (RateLimiter.init rpm B t0) t0 k).tokens
          + (t0 - (rlIter (RateLimiter.init rpm B t0) t0 k).last_update)
            * (rlIter (RateLimiter.init rpm B t0) t0 k).rate) = (B : ℚ) - k := by
      rw [ht, hu, hb, hr, show (B:ℚ) - k + (t0 - t0) * ((rpm:ℚ)/60) = (B:ℚ) - k by ring]
      exact min_eq_right (by linarith)
    have hge : (1 : ℚ) ≤ (B : ℚ) - k := by linarith
    rw [show rlIter (RateLimiter.init rpm B t0) t0 (k + 1)
        = ((rlIter (RateLimiter.init rpm B t0) t0 k).allow_request t0 "default").2 from rfl]
    unfold RateLimiter.allow_request
    dsimp only
    rw [hmin, if_pos hge]
    refine ⟨?_, rfl, hr, hb⟩
    dsimp only
    push_cast
    ring

/-- C2: on a fresh bucket with burst `B ≥ 1` and positive rate, the first `B`
zero-elapsed-time calls are allowed and the `(B+1)`-th is denied with
`retry_after = (1 - tokens) / rate > 0`. -/
theorem claim_C2 (rpm B : ℕ) (t0 : ℚ) (hB : 1 ≤ B) (hrpm : 1 ≤ rpm) :
    (∀ k, k < B → nthCallResult (RateLimiter.init rpm B t0) t0 k = (true, none)) ∧
    nthCallResult (RateLimiter.init rpm B t0) t0 B
      = (false, some ((1 - (rlIter (RateLimiter.init rpm B t0) t0 B).tokens)
          / (rlIter (RateLimiter.init rpm B t0) t0 B).rate)) ∧
    (rlIter (RateLimiter.init rpm B t0) t0 B).tokens = 0 ∧
    0 < (1 - (rlIter (RateLimiter.init rpm B t0) t0 B).tokens)
          / (rlIter (RateLimiter.init rpm B t0) t0 B).rate := by
  have hfinal := rlIter_init_state rpm B t0 B le_rfl
  obtain ⟨ht, hu, hr, hb⟩ := hfinal
  have htok0 : (rlIter (RateLimiter.init rpm B t0) t0 B).tokens = 0 := by
    rw [ht]; ring
  have hrpos : (0 : ℚ) < (rpm : ℚ) / 60 := by
    have : (0 : ℚ) < (rpm : ℚ) := by exact_mod_cast hrpm
    positivity
  refine ⟨?_, ?_, htok0, ?_⟩
  · intro k hk
    obtain ⟨ht', hu', hr', hb'⟩ := rlIter_init_state rpm B t0 k (Nat.le_of_lt hk)
    have hcast : (k : ℚ) + 1 ≤ (B : ℚ) := by exact_mod_cast hk
    have hk0 : (0 : ℚ) ≤ (k : ℚ) := Nat.cast_nonneg k
    have hmin : min (rlIter (RateLimiter.init rpm B t0) t0 k).burst
        ((rlIter (RateLimiter.init rpm B t0) t0 k).tokens
          + (t0 - (rlIter (RateLimiter.init rpm B t0) t0 k).last_update)
            * (rlIter (RateLimiter.init rpm B t0) t0 k).rate) = (B : ℚ) - k := by
      rw [ht', hu', hb', hr', show (B:ℚ) - k + (t0 - t0) * ((rpm:ℚ)/60) = (B:ℚ) - k by ring]
      exact min_eq_right (by linarith)
    unfold nthCallResult RateLimiter.allow_request
    dsimp only
    rw [hmin, if_pos (show (1:ℚ) ≤ (B:ℚ) - k by linarith)]
  · have hB0 : (0 : ℚ) ≤ (B : ℚ) := Nat.cast_nonneg B
    have hmin : min (rlIter (RateLimiter.init rpm B t0) t0 B).burst
        ((rlIter (RateLimiter.init rpm B t0) t0 B).tokens
          + (t0 - (rlIter (RateLimiter.init rpm B t0) t0 B).last_update)
            * (rlIter (RateLimiter.init rpm B t0) t0 B).rate)
        = (rlIter (RateLimiter.init rpm B t0) t0 B).tokens := by
      rw [htok0, hu, hb, hr, show (0:ℚ) + (t0 - t0) * ((rpm:ℚ)/60) = 0 by ring]
      exact min_eq_right hB0
    unfold nthCallResult RateLimiter.allow_request
    dsimp only
    rw [hmin, if_neg (by rw [htok0]; norm_num), htok0, hr]
  · rw [htok0, hr]
    simpa using hrpos

/-- Witness for C2 at burst 2 and the default 60 requests per minute. -/
theorem claim_C2_witness :
    1 ≤ 2 ∧ 1 ≤ 60 ∧
    nthCallResult (RateLimiter.init 60 2 0) 0 1 = (true, none) ∧
    (rlIter (RateLimiter.init 60 2 0) 0 2).tokens = 0 :=
  ⟨by decide, by decide,
    (claim_C2 60 2 0 (by decide) (by decide)).1 1 (by decide),
    (claim_C2 60 2 0 (by decide) (by decide)).2.2.1⟩

/-- C4: the token count stays in `[0, B]` at every observation point of any
call sequence with non-decreasing timestamps. -/
theorem claim_C4 (rpm B : ℕ) (t0 : ℚ) (ts : List ℚ) (n : ℕ)
    (hchain : List.Chain (· ≤ ·) t0 ts) :
    0 ≤ (runCalls (RateLimiter.init rpm B t0) (ts.take n)).tokens ∧
    (runCalls (RateLimiter.init rpm B t0) (ts.take n)).tokens ≤ (B : ℚ) := by
  have h := runCalls_invariant (ts.take n) (RateLimiter.init rpm B t0)
    (by simp [RateLimiter.init]) (le_refl _)
    (by
      have : (0 : ℚ) ≤ (rpm : ℚ) := Nat.cast_nonneg rpm
      show (0 : ℚ) ≤ (rpm : ℚ) / 60
      positivity)
    (chain_take ts n hchain)
  refine ⟨h.1, ?_⟩
  have h2 := h.2.1
  rw [h.2.2] at h2
  simpa [RateLimiter.init] using h2

/-- Witness for C4 on a concrete two-call schedule. -/
theorem claim_C4_witness :
    List.Chain (· ≤ ·) (0 : ℚ) [1, 2] ∧
    0 ≤ (runCalls (RateLimiter.init 60 10 0) ([1, 2].take 2)).tokens ∧
    (runCalls (RateLimiter.init 60 10 0) ([(1 : ℚ), 2].take 2)).tokens ≤ ((10 : ℕ) : ℚ) := by
  have hch : List.Chain (· ≤ ·) (0 : ℚ) [1, 2] :=
    List.chain_cons.mpr ⟨by norm_num, List.chain_cons.mpr ⟨by norm_num, List.Chain.nil⟩⟩
  exact ⟨hch, (claim_C4 60 10 0 [1, 2] 2 hch).1, (claim_C4 60 10 0 [1, 2] 2 hch).2⟩

/-! ## Metrics claims -/

/-- C6: the exact counter/accumulator deltas of one `record_request` call. -/
theorem claim_C6 (m : MetricsState) (tool : String) (succ : Bool) (dur : ℚ) (rl : Bool) :
    (m.record_request tool succ dur rl).requests_total = m.requests_total + 1 ∧
    (rl = true →
      (m.record_request tool succ dur rl).requests_rate_limited
          = m.requests_rate_limited + 1 ∧
      (m.record_request tool succ dur rl).requests_success = m.requests_success ∧
      (m.record_request tool succ dur rl).requests_failed = m.requests_failed ∧
      (m.record_request tool succ dur rl).total_duration_ms = m.total_duration_ms ∧
      (m.record_request tool succ dur rl).by_tool = m.by_tool) ∧
    (rl = false →
      (m.record_request tool succ dur rl).requests_rate_limited = m.requests_rate_limited ∧
      (succ = true →
        (m.record_request tool succ dur rl).requests_success = m.requests_success + 1 ∧
        (m.record_request tool succ dur rl).requests_failed = m.requests_failed) ∧
      (succ = false →
        (m.record_request tool succ dur rl).requests_failed = m.requests_failed + 1 ∧
        (m.record_request tool succ dur rl).requests_success = m.requests_success) ∧
      (m.record_request tool succ dur rl).total_duration_ms = m.total_duration_ms + dur ∧
      ((m.record_request tool succ dur rl).by_tool tool).count = (m.by_tool tool).count + 1 ∧
      ((m.record_request tool succ dur rl).by_tool tool).duration_ms
          = (m.by_tool tool).duration_ms + dur ∧
      ((m.record_request tool succ dur rl).by_tool tool).errors
          = (m.by_tool tool).errors + (if succ = true then 0 else 1)) := by
  cases rl <;> cases succ <;>
    simp [MetricsState.record_request]

/-- Witness for C6: a failed non-rate-limited recording bumps the failure
counter. -/
theorem claim_C6_witness :
    ((MetricsState.init 0).record_request "list_watches" false 5 false).requests_failed
      = (MetricsState.init 0).requests_failed + 1 :=
  (((claim_C6 (MetricsState.init 0) "list_watches" false 5 false).2.2 rfl).2.2.1 rfl).1

/-- C7 counterexample: with one success out of three requests, the reported
success rate is the rounded 33.33, not the exact 100/3 the claim states. -/
theorem claim_C7_counterexample :
    metricsOneOfThree.requests_total = 3 ∧
    metricsOneOfThree.requests_success = 1 ∧
    (metricsOneOfThree.get_metrics 0).success_rate = 3333 / 100 ∧
    (metricsOneOfThree.get_metrics 0).success_rate
      ≠ (metricsOneOfThree.requests_success : ℚ) / (metricsOneOfThree.requests_total : ℚ)
          * 100 := by
  have h1 : metricsOneOfThree.requests_total = 3 := rfl
  have h2 : metricsOneOfThree.requests_success = 1 := rfl
  have h : (metricsOneOfThree.get_metrics 0).success_rate
      = round2 (((1 : ℕ) : ℚ) / ((3 : ℕ) : ℚ) * 100) := rfl
  refine ⟨h1, h2, ?_, ?_⟩
  · rw [h, round2]
    norm_num [round_eq]
  · rw [h, h2, h1, round2]
    norm_num [round_eq]

/-- C7 (corrected): `get_metrics` reports the success rate and the average
duration rounded to two decimal places, with the zero guards as claimed; in
the rational model no division by zero can occur and the guards pin the
zero-denominator results to 0. -/
theorem claim_C7_amended (m : MetricsState) (now : ℚ) :
    (m.get_metrics now).success_rate
      = (if m.requests_total > 0
          then round2 ((m.requests_success : ℚ) / (m.requests_total : ℚ) * 100) else 0) ∧
    (m.get_metrics now).avg_duration_ms
      = (if m.requests_success > 0
          then round2 (m.total_duration_ms / (m.requests_success : ℚ)) else 0) ∧
    (m.requests_total = 0 → (m.get_metrics now).success_rate = 0) ∧
    (m.requests_success = 0 → (m.get_metrics now).avg_duration_ms = 0) := by
  refine ⟨rfl, ?_, ?_, ?_⟩
  · by_cases h : m.requests_success > 0
    · simp [MetricsState.get_metrics, h]
    · simp [MetricsState.get_metrics, h, round2]
  · intro h
    simp [MetricsState.get_metrics, h]
  · intro h
    simp [MetricsState.get_metrics, h, round2]

/-- Witness for C7: the fresh collector reports a success rate of zero. -/
theorem claim_C7_amended_witness :
    ((MetricsState.init 0).get_metrics 0).success_rate = 0 :=
  (claim_C7_amended (MetricsState.init 0) 0).2.2.1 rfl

/-! ## Helper lemmas about the dispatcher -/

/-- The zero-burst limiter rejects the very first request. -/
theorem stDeny_denies : (stDeny.limiter.allow_request 0 "default").1.1 = false := by
  unfold stDeny RateLimiter.init RateLimiter.allow_request
  dsimp only
  rw [if_neg (by push_cast; norm_num)]

/-- Shape of a rejected `call_tool` invocation. -/
theorem call_tool_denied {Data : Type} (cfg : Config) (oracle : Oracle Data) (name : String)
    (args : Args) (st : SysState) (t1 t2 t3 : ℚ)
    (hen : cfg.rate_limit_enabled = true) (hname : name ≠ "get_metrics")
    (hdeny : (st.limiter.allow_request t2 "default").1.1 = false) :
    call_tool cfg oracle name args st t1 t2 t3 =
      { envelope := [("error", JVal.jstr "rate_limit_exceeded"),
          ("message", JVal.jstr ("Rate limit exceeded. Retry after "
            ++ fmt1 (((st.limiter.allow_request t2 "default").1.2).getD 0) ++ "s")),
          ("retry_after", JVal.jnum (((st.limiter.allow_request t2 "default").1.2).getD 0))],
        state := { limiter := (st.limiter.allow_request t2 "default").2,
                   metrics := finallyRecord cfg (st.metrics.record_request name false 0 true)
                     name false t1 t3 },
        trace := [] } := by
  unfold call_tool
  rw [if_pos ⟨hen, hname⟩]
  dsimp only
  rw [hdeny]
  simp only [Bool.false_eq_true, if_false]

/-- When the gate is disabled, skipped, or grants a token, `call_tool` reduces
to `afterGate` at some limiter state and the unchanged metrics. -/
theorem call_tool_passed {Data : Type} (cfg : Config) (oracle : Oracle Data) (name : String)
    (args : Args) (st : SysState) (t1 t2 t3 : ℚ)
    (h : cfg.rate_limit_enabled = false ∨ name = "get_metrics"
      ∨ (st.limiter.allow_request t2 "default").1.1 = true) :
    ∃ rl', call_tool cfg oracle name args st t1 t2 t3
      = afterGate cfg oracle name args { limiter := rl', metrics := st.metrics } t1 t3 := by
  unfold call_tool
  by_cases hc : cfg.rate_limit_enabled = true ∧ ¬(name = "get_metrics")
  · rw [if_pos hc]
    have hallow : (st.limiter.allow_request t2 "default").1.1 = true := by
      rcases h with h | h | h
      · rw [h] at hc
        exact absurd hc.1 (by simp)
      · exact absurd h hc.2
      · exact h
    dsimp only
    rw [hallow]
    simp only [if_true]
    exact ⟨(st.limiter.allow_request t2 "default").2, rfl⟩
  · rw [if_neg hc]
    exact ⟨st.limiter, by cases st; rfl⟩

/-- `routeTool` on a name outside the catalog raises the unknown-tool
`ValueError` and issues no request. -/
theorem routeTool_unknown {Data : Type} (cfg : Config) (oracle : Oracle Data)
    (rl : RateLimiter) (m : MetricsState) (tS : ℚ) (name : String) (args : Args)
    (hunk : name ∉ knownTools) :
    routeTool cfg oracle rl m tS name args
      = (.error (.valueError ("Unknown tool: " ++ name)), []) := by
  have h' : ¬(name = "list_watches") ∧ ¬(name = "get_watch") ∧ ¬(name = "create_watch")
      ∧ ¬(name = "delete_watch") ∧ ¬(name = "trigger_check") ∧ ¬(name = "get_history")
      ∧ ¬(name = "system_info") ∧ ¬(name = "get_metrics") := by
    simpa [knownTools, not_or] using hunk
  obtain ⟨h1, h2, h3, h4, h5, h6, h7, h8⟩ := h'
  unfold routeTool
  dsimp only
  rw [if_neg h1, if_neg h2, if_neg h3, if_neg h4, if_neg h5, if_neg h6, if_neg h7, if_neg h8]

/-- `afterGate` when routing succeeds with payload `d`. -/
theorem afterGate_ok {Data : Type} (cfg : Config) (oracle : Oracle Data) (name : String)
    (args : Args) (st : SysState) (t1 t3 : ℚ) (d : ToolData Data) (tr : List HttpReq)
    (h : routeTool cfg oracle st.limiter st.metrics t1 name args = (.ok d, tr)) :
    afterGate cfg oracle name args st t1 t3 =
      { envelope := [("success", JVal.jbool true), ("data", JVal.jpayload d)]
        state := { limiter := st.limiter,
                   metrics := finallyRecord cfg st.metrics name true t1 t3 }
        trace := tr } := by
  unfold afterGate
  dsimp only
  have h1 : (routeTool cfg oracle st.limiter st.metrics t1 name args).1 = .ok d := by rw [h]
  have h2 : (routeTool cfg oracle st.limiter st.metrics t1 name args).2 = tr := by rw [h]
  rw [h1, h2]

/-- `afterGate` when routing raises a `ValueError`. -/
theorem afterGate_valueError {Data : Type} (cfg : Config) (oracle : Oracle Data) (name : String)
    (args : Args) (st : SysState) (t1 t3 : ℚ) (msg : String) (tr : List HttpReq)
    (h : routeTool cfg oracle st.limiter st.metrics t1 name args
      = (.error (.valueError msg), tr)) :
    afterGate cfg oracle name args st t1 t3 =
      { envelope := [("success", JVal.jbool false), ("error", JVal.jstr "validation_error"),
          ("message", JVal.jstr msg)]
        state := { limiter := st.limiter,
                   metrics := finallyRecord cfg st.metrics name false t1 t3 }
        trace := tr } := by
  unfold afterGate
  dsimp only
  have h1 : (routeTool cfg oracle st.limiter st.metrics t1 name args).1
      = .error (.valueError msg) := by rw [h]
  have h2 : (routeTool cfg oracle st.limiter st.metrics t1 name args).2 = tr := by rw [h]
  rw [h1, h2]

/-- `afterGate` when routing raises any other exception. -/
theorem afterGate_otherError {Data : Type} (cfg : Config) (oracle : Oracle Data) (name : String)
    (args : Args) (st : SysState) (t1 t3 : ℚ) (msg : String) (tr : List HttpReq)
    (h : routeTool cfg oracle st.limiter st.metrics t1 name args
      = (.error (.otherError msg), tr)) :
    afterGate cfg oracle name args st t1 t3 =
      { envelope := [("success", JVal.jbool false), ("error", JVal.jstr "execution_error"),
          ("message", JVal.jstr (if cfg.debug_mode = true then msg
            else "An error occurred processing your request"))]
        state := { limiter := st.limiter,
                   metrics := finallyRecord cfg st.metrics name false t1 t3 }
        trace := tr } := by
  unfold afterGate
  dsimp only
  have h1 : (routeTool cfg oracle st.limiter st.metrics t1 name args).1
      = .error (.otherError msg) := by rw [h]
  have h2 : (routeTool cfg oracle st.limiter st.metrics t1 name args).2 = tr := by rw [h]
  rw [h1, h2]

/-! ## Dispatcher claims -/

/-- C1 (corrected): a rejected invocation returns the rate-limit envelope with
no outbound request; `requests_rate_limited` gains one and `requests_success`
is untouched, but the always-run `finally` block records the call again as a
failure, so `requests_failed` gains one exactly when metrics are enabled. -/
theorem claim_C1_amended {Data : Type} (cfg : Config) (oracle : Oracle Data) (name : String)
    (args : Args) (st : SysState) (t1 t2 t3 : ℚ)
    (hen : cfg.rate_limit_enabled = true) (hname : name ≠ "get_metrics")
    (hdeny : (st.limiter.allow_request t2 "default").1.1 = false) :
    (call_tool cfg oracle name args st t1 t2 t3).trace = [] ∧
    (∃ msg r, (call_tool cfg oracle name args st t1 t2 t3).envelope
      = [("error", JVal.jstr "rate_limit_exceeded"), ("message", JVal.jstr msg),
         ("retry_after", JVal.jnum r)]) ∧
    (call_tool cfg oracle name args st t1 t2 t3).state.metrics.requests_success
      = st.metrics.requests_success ∧
    (call_tool cfg oracle name args st t1 t2 t3).state.metrics.requests_rate_limited
      = st.metrics.requests_rate_limited + 1 ∧
    (call_tool cfg oracle name args st t1 t2 t3).state.metrics.requests_failed
      = st.metrics.requests_failed + (if cfg.enable_metrics = true then 1 else 0) := by
  rw [call_tool_denied cfg oracle name args st t1 t2 t3 hen hname hdeny]
  refine ⟨rfl, ⟨_, _, rfl⟩, ?_, ?_, ?_⟩
  · cases hm : cfg.enable_metrics <;>
      simp [finallyRecord, hm, MetricsState.record_request]
  · cases hm : cfg.enable_metrics <;>
      simp [finallyRecord, hm, MetricsState.record_request]
  · cases hm : cfg.enable_metrics <;>
      simp [finallyRecord, hm, MetricsState.record_request]

/-- Witness for C1 (amended) on the default configuration and an exhausted
bucket. -/
theorem claim_C1_amended_witness :
    cfg0.rate_limit_enabled = true ∧
    (call_tool cfg0 oracleU "list_watches" noArgs stDeny 0 0 0).trace = [] ∧
    (call_tool cfg0 oracleU "list_watches" noArgs stDeny 0 0 0).state.metrics.requests_failed
      = stDeny.metrics.requests_failed + (if cfg0.enable_metrics = true then 1 else 0) :=
  ⟨rfl,
    (claim_C1_amended cfg0 oracleU "list_watches" noArgs stDeny 0 0 0 rfl
      (by decide) stDeny_denies).1,
    (claim_C1_amended cfg0 oracleU "list_watches" noArgs stDeny 0 0 0 rfl
      (by decide) stDeny_denies).2.2.2.2⟩

/-- C1 counterexample: under the default configuration (metrics enabled), a
rate-limited call leaves `requests_failed` at 1, not 0 — the `finally` block
records the rejected call a second time as a failure. -/
theorem claim_C1_counterexample :
    cfg0.rate_limit_enabled = true ∧
    (stDeny.limiter.allow_request 0 "default").1.1 = false ∧
    stDeny.metrics.requests_failed = 0 ∧
    (call_tool cfg0 oracleU "list_watches" noArgs stDeny 0 0 0).trace = [] ∧
    (call_tool cfg0 oracleU "list_watches" noArgs stDeny 0 0 0).state.metrics.requests_rate_limited = 1 ∧
    (call_tool cfg0 oracleU "list_watches" noArgs stDeny 0 0 0).state.metrics.requests_failed = 1 := by
  have hc := call_tool_denied cfg0 oracleU "list_watches" noArgs stDeny 0 0 0 rfl
    (by decide) stDeny_denies
  refine ⟨rfl, stDeny_denies, rfl, ?_, ?_, ?_⟩ <;> rw [hc] <;> rfl

/-- C3: an unknown tool name that passes the rate gate yields the
validation-error envelope naming the tool, not an execution-error envelope. -/
theorem claim_C3 {Data : Type} (cfg : Config) (oracle : Oracle Data) (name : String)
    (args : Args) (st : SysState) (t1 t2 t3 : ℚ)
    (hunk : name ∉ knownTools)
    (hgate : cfg.rate_limit_enabled = false
      ∨ (st.limiter.allow_request t2 "default").1.1 = true) :
    (call_tool cfg oracle name args st t1 t2 t3).envelope
      = [("success", JVal.jbool false), ("error", JVal.jstr "validation_error"),
         ("message", JVal.jstr ("Unknown tool: " ++ name))] := by
  obtain ⟨rl', heq⟩ := call_tool_passed cfg oracle name args st t1 t2 t3
    (by rcases hgate with h | h
        · exact Or.inl h
        · exact Or.inr (Or.inr h))
  rw [heq, afterGate_valueError cfg oracle name args ⟨rl', st.metrics⟩ t1 t3
    ("Unknown tool: " ++ name) [] (routeTool_unknown cfg oracle rl' st.metrics t1 name args hunk)]

/-- Witness for C3 with a concrete unknown tool name. -/
theorem claim_C3_witness :
    ("frobnicate" : String) ∉ knownTools ∧
    (call_tool cfgOff oracleU "frobnicate" noArgs stFresh 0 0 0).envelope
      = [("success", JVal.jbool false), ("error", JVal.jstr "validation_error"),
         ("message", JVal.jstr ("Unknown tool: " ++ "frobnicate"))] :=
  ⟨by decide,
    claim_C3 cfgOff oracleU "frobnicate" noArgs stFresh 0 0 0 (by decide) (Or.inl rfl)⟩

/-- C5: a missing or empty required argument short-circuits to a
validation-error envelope with no outbound request. -/
theorem claim_C5 {Data : Type} (cfg : Config) (oracle : Oracle Data) (name : String)
    (args : Args) (st : SysState) (t1 t2 t3 : ℚ)
    (hgate : cfg.rate_limit_enabled = false
      ∨ (st.limiter.allow_request t2 "default").1.1 = true)
    (harg : (name ∈ (["get_watch", "delete_watch", "trigger_check", "get_history"] : List String)
        ∧ (args "watch_id" = none ∨ args "watch_id" = some ""))
      ∨ (name = "create_watch" ∧ (args "url" = none ∨ args "url" = some ""))) :
    (∃ msg, (call_tool cfg oracle name args st t1 t2 t3).envelope
      = [("success", JVal.jbool false), ("error", JVal.jstr "validation_error"),
         ("message", JVal.jstr msg)]) ∧
    (call_tool cfg oracle name args st t1 t2 t3).trace = [] := by
  obtain ⟨rl', heq⟩ := call_tool_passed cfg oracle name args st t1 t2 t3
    (by rcases hgate with h | h
        · exact Or.inl h
        · exact Or.inr (Or.inr h))
  rcases harg with ⟨hmem, hwid⟩ | ⟨rfl, hurl⟩
  · have hw : (args "watch_id").getD "" = "" := by
      rcases hwid with h | h <;> rw [h] <;> rfl
    simp only [List.mem_cons, List.mem_singleton, List.not_mem_nil, or_false] at hmem
    rcases hmem with rfl | rfl | rfl | rfl
    · have hroute : routeTool cfg oracle rl' st.metrics t1 "get_watch" args
          = (.error (.valueError "watch_id is required"), []) := by
        unfold routeTool
        dsimp only
        rw [if_neg (by decide), if_pos rfl, if_pos hw]
      rw [heq, afterGate_valueError cfg oracle _ args ⟨rl', st.metrics⟩ t1 t3 _ [] hroute]
      exact ⟨⟨"watch_id is required", rfl⟩, rfl⟩
    · have hroute : routeTool cfg oracle rl' st.metrics t1 "delete_watch" args
          = (.error (.valueError "watch_id is required"), []) := by
        unfold routeTool
        dsimp only
        rw [if_neg (by decide), if_neg (by decide), if_neg (by decide), if_pos rfl, if_pos hw]
      rw [heq, afterGate_valueError cfg oracle _ args ⟨rl', st.metrics⟩ t1 t3 _ [] hroute]
      exact ⟨⟨"watch_id is required", rfl⟩, rfl⟩
    · have hroute : routeTool cfg oracle rl' st.metrics t1 "trigger_check" args
          = (.error (.valueError "watch_id is required"), []) := by
        unfold routeTool
        dsimp only
        rw [if_neg (by decide), if_neg (by decide), if_neg (by decide), if_neg (by decide),
          if_pos rfl, if_pos hw]
      rw [heq, afterGate_valueError cfg oracle _ args ⟨rl', st.metrics⟩ t1 t3 _ [] hroute]
      exact ⟨⟨"watch_id is required", rfl⟩, rfl⟩
    · have hroute : routeTool cfg oracle rl' st.metrics t1 "get_history" args
          = (.error (.valueError "watch_id is required"), []) := by
        unfold routeTool
        dsimp only
        rw [if_neg (by decide), if_neg (by decide), if_neg (by decide), if_neg (by decide),
          if_neg (by decide), if_pos rfl, if_pos hw]
      rw [heq, afterGate_valueError cfg oracle _ args ⟨rl', st.metrics⟩ t1 t3 _ [] hroute]
      exact ⟨⟨"watch_id is required", rfl⟩, rfl⟩
  · have hu : (args "url").getD "" = "" := by
      rcases hurl with h | h <;> rw [h] <;> rfl
    have hroute : routeTool cfg oracle rl' st.metrics t1 "create_watch" args
        = (.error (.valueError "url is required"), []) := by
      unfold routeTool
      dsimp only
      rw [if_neg (by decide), if_neg (by decide), if_pos rfl, if_pos hu]
    rw [heq, afterGate_valueError cfg oracle _ args ⟨rl', st.metrics⟩ t1 t3 _ [] hroute]
    exact ⟨⟨"url is required", rfl⟩, rfl⟩

/-- Witness for C5: `get_watch` with no arguments at all. -/
theorem claim_C5_witness :
    noArgs "watch_id" = none ∧
    (∃ msg, (call_tool cfgOff oracleU "get_watch" noArgs stFresh 0 0 0).envelope
      = [("success", JVal.jbool false), ("error", JVal.jstr "validation_error"),
         ("message", JVal.jstr msg)]) ∧
    (call_tool cfgOff oracleU "get_watch" noArgs stFresh 0 0 0).trace = [] :=
  ⟨rfl,
    (claim_C5 cfgOff oracleU "get_watch" noArgs stFresh 0 0 0 (Or.inl rfl)
      (Or.inl ⟨by decide, Or.inl rfl⟩)).1,
    (claim_C5 cfgOff oracleU "get_watch" noArgs stFresh 0 0 0 (Or.inl rfl)
      (Or.inl ⟨by decide, Or.inl rfl⟩)).2⟩

/-- C8: the rate-limit envelope carries exactly the fields `error`, `message`,
`retry_after` (and no `success` field), while every other envelope carries
`success: true` with `data` or `success: false` with `error` and `message`. -/
theorem claim_C8 {Data : Type} (cfg : Config) (oracle : Oracle Data) (name : String)
    (args : Args) (st : SysState) (t1 t2 t3 : ℚ) :
    ((cfg.rate_limit_enabled = true ∧ name ≠ "get_metrics"
        ∧ (st.limiter.allow_request t2 "default").1.1 = false) →
      ((call_tool cfg oracle name args st t1 t2 t3).envelope.map Prod.fst
          = ["error", "message", "retry_after"] ∧
        List.lookup "error" (call_tool cfg oracle name args st t1 t2 t3).envelope
          = some (JVal.jstr "rate_limit_exceeded") ∧
        List.lookup "success" (call_tool cfg oracle name args st t1 t2 t3).envelope = none)) ∧
    ((cfg.rate_limit_enabled = false ∨ name = "get_metrics"
        ∨ (st.limiter.allow_request t2 "default").1.1 = true) →
      ((∃ d, (call_tool cfg oracle name args st t1 t2 t3).envelope
          = [("success", JVal.jbool true), ("data", JVal.jpayload d)]) ∨
        (∃ k msg, (call_tool cfg oracle name args st t1 t2 t3).envelope
            = [("success", JVal.jbool false), ("error", JVal.jstr k),
               ("message", JVal.jstr msg)]
          ∧ (k = "validation_error" ∨ k = "execution_error")))) := by
  constructor
  · rintro ⟨hen, hname, hdeny⟩
    rw [call_tool_denied cfg oracle name args st t1 t2 t3 hen hname hdeny]
    exact ⟨rfl, rfl, rfl⟩
  · intro hp
    obtain ⟨rl', heq⟩ := call_tool_passed cfg oracle name args st t1 t2 t3 hp
    rcases hr : routeTool cfg oracle rl' st.metrics t1 name args with ⟨res, tr⟩
    rcases res with pe | d
    · rcases pe with msg | msg
      · rw [heq, afterGate_valueError cfg oracle name args ⟨rl', st.metrics⟩ t1 t3 msg tr hr]
        exact Or.inr ⟨"validation_error", msg, rfl, Or.inl rfl⟩
      · rw [heq, afterGate_otherError cfg oracle name args ⟨rl', st.metrics⟩ t1 t3 msg tr hr]
        exact Or.inr ⟨"execution_error", _, rfl, Or.inr rfl⟩
    · rw [heq, afterGate_ok cfg oracle name args ⟨rl', st.metrics⟩ t1 t3 d tr hr]
      exact Or.inl ⟨d, rfl⟩

/-- Witness for C8 on a rejected call under the default configuration. -/
theorem claim_C8_witness :
    (call_tool cfg0 oracleU "list_watches" noArgs stDeny 0 0 0).envelope.map Prod.fst
      = ["error", "message", "retry_after"] ∧
    List.lookup "success" (call_tool cfg0 oracleU "list_watches" noArgs stDeny 0 0 0).envelope
      = none :=
  ⟨((claim_C8 cfg0 oracleU "list_watches" noArgs stDeny 0 0 0).1
      ⟨rfl, by decide, stDeny_denies⟩).1,
    ((claim_C8 cfg0 oracleU "list_watches" noArgs stDeny 0 0 0).1
      ⟨rfl, by decide, stDeny_denies⟩).2.2⟩

end ChangeDetection
